import Mathlib

/-!
Verification of the leave-lifecycle and balance-accounting engine of the
Symplora HR management backend.

The repository contains two parallel Django app variants:
  * `backend/app/models.py`   (the "backend" variant), and
  * `HRManagement/app/models.py` (the "HR" variant).

This file gives a shallow embedding of the model-layer methods the claims
are about.  Conventions used throughout:

  * A calendar date is its ordinal day number (an `Int`, days since the
    Unix epoch); `(end_date - start_date).days` of Python becomes plain
    integer subtraction, and `date.year` becomes `yearOf` below (the
    standard civil-from-days computation).
  * `timezone.now().date()` is an explicit `today : Int` argument;
    `timezone.now()` timestamps are likewise modelled by that argument.
  * Stored state is a `DB` value holding the persisted `LeaveApplication`
    and `LeaveBalance` rows.  Operations that in Django both raise and
    have already-committed writes (the storage layer runs in autocommit
    mode) return `Except PyErr α × DB`: the exception outcome plus the
    state as left behind.
  * Error messages are modelled as `Violation` tags carrying no string
    payload.  Where building a Python message itself raises (an f-string
    reading an attribute the model does not have, e.g. `leave_type.name`
    on a model whose field is `leave_name`), the embedding returns
    `PyErr.attributeError` instead of producing a tag.
  * Django raises `ValueError` when `save(update_fields=...)` names a
    non-existent field; this is `PyErr.valueError`.
  * Surrogate UUID primary keys become `Nat` identifiers.  `LeaveBalance`
    rows are keyed by their unique `(employee, leave_type, year)` triple
    (the model declares a `UniqueConstraint` on exactly that triple).
  * `DecimalField` amounts (salary) are modelled as `Int`.
-/

/-- Python exception outcomes distinguished by the embedding. -/
inductive PyErr where
  | validationError
  | attributeError
  | valueError
deriving DecidableEq, Repr

/-- The four `STATUS_CHOICES` of `LeaveManagement` (both variants). -/
inductive LeaveStatus where
  | PENDING
  | APPROVED
  | REJECTED
  | CANCELLED
deriving DecidableEq, Repr

/-- Tags standing for the violation message strings appended by the two
`can_apply_leave` implementations, and by the spec's Eligibility
Validator (§4.1).  A tag identifies which check produced the message. -/
inductive Violation where
  /-- backend: "Leave duration must be at least 1 day" -/
  | leaveDurationAtLeastOneDay
  /-- backend: "Cannot apply for leave in the past" -/
  | cannotApplyInPast
  /-- both variants: "End date cannot be before start date" -/
  | endBeforeStart
  /-- backend: "Leave dates overlap with existing approved leave" -/
  | overlapsApprovedLeave
  /-- HR: "Inactive employee cannot apply for leave" -/
  | inactiveEmployee
  /-- HR: "Cannot apply for leave before joining date" -/
  | beforeJoiningDate
  /-- HR: "Cannot apply for leave after resignation date" -/
  | afterResignationDate
  /-- HR: "Cannot apply for leave for past dates" -/
  | pastDates
  /-- HR: "This leave type is not active" -/
  | leaveTypeInactive
  /-- both variants: "Insufficient leave balance. ..." -/
  | insufficientBalance
  /-- spec §4.1 check 6 (in the HR source the corresponding f-string
  raises before the message exists) -/
  | maxConsecutiveExceeded
  /-- spec §4.1 check 7 (same remark) -/
  | noticeTooShort
  /-- HR: "Leave dates overlap with existing ... leave (...)" -/
  | overlapsExistingLeave
deriving DecidableEq, Repr

/-- `date.year` for a date given as days since 1970-01-01: the standard
civil-from-days calendar computation (proleptic Gregorian), matching
Python's `datetime.date`. -/
def yearOf (z : Int) : Int :=
  let z' := z + 719468
  let era := z'.fdiv 146097
  let doe := z' - era * 146097
  let yoe := (doe - doe / 1460 + doe / 36524 - doe / 146096) / 365
  let y := yoe + era * 400
  let doy := doe - (365 * yoe + yoe / 4 - yoe / 100)
  let mp := (5 * doy + 2) / 153
  let m := if mp < 10 then mp + 3 else mp - 9
  if m ≤ 2 then y + 1 else y

/-- `Employee` (fields used by the leave logic). -/
structure Employee where
  emp_id : Nat
  emp_name : String
  hire_date : Int
  resignation_date : Option Int
  is_active : Bool
deriving DecidableEq, Repr

/-- `LeaveType` (policy fields). -/
structure LeaveType where
  leave_type_id : Nat
  leave_name : String
  annual_allocation : Int
  max_consecutive_days : Int
  min_notice_days : Int
  is_active : Bool
deriving DecidableEq, Repr

/-- A `LeaveBalance` row.  The surrogate `balance_id` is omitted: rows
carry the `unique_leave_balance_per_year` constraint on
`(employee, leave_type, year)`, which is how every access keys them. -/
structure LeaveBalance where
  employee : Nat
  leave_type : Nat
  year : Int
  balance : Int
deriving DecidableEq, Repr

/-- A `LeaveManagement` row / in-memory instance (backend variant field
set; the HR variant lacks `rejection_reason` and `year`, which is
captured by the explicit field-name list `hrLeaveConcreteFields`
below, the datum Django's `update_fields` check consults). -/
structure LeaveApplication where
  leave_id : Nat
  employee : Employee
  leave_type : LeaveType
  start_date : Int
  end_date : Int
  days_requested : Int
  reason : String
  status : LeaveStatus
  validated_on : Option Int
  comments : Option String
  rejection_reason : Option String
  year : Int
deriving DecidableEq, Repr

/-- The persisted store consulted and mutated by the leave operations. -/
structure DB where
  leaves : List LeaveApplication
  balances : List LeaveBalance
deriving DecidableEq, Repr

/-- `employee.leave_balances.get(leave_type=…, year=…)`: the row matching
the unique key, if any. -/
def findBalance (bs : List LeaveBalance) (e lt : Nat) (y : Int) :
    Option LeaveBalance :=
  bs.find? (fun r => decide (r.employee = e ∧ r.leave_type = lt ∧ r.year = y))

/-- `LeaveBalance.objects.get_or_create(employee, leave_type, year,
defaults={'balance': seed})` followed by `balance += delta; save()`:
the body of `LeaveManagement._update_leave_balance` (backend variant,
models.py lines 458-468). -/
def applyBalanceDelta (e lt : Nat) (y : Int) (seed delta : Int) :
    List LeaveBalance → List LeaveBalance
  | [] => [⟨e, lt, y, seed + delta⟩]
  | r :: rest =>
    if r.employee = e ∧ r.leave_type = lt ∧ r.year = y then
      { r with balance := r.balance + delta } :: rest
    else
      r :: applyBalanceDelta e lt y seed delta rest

/-- backend `can_apply_leave` consumed days: `self.leaves.filter(
leave_type=…, year=year, status='APPROVED').aggregate(Sum(
'days_requested'))` — the filter reads the *stored* `year` column. -/
def consumedDays (ls : List LeaveApplication) (e lt : Nat) (y : Int) : Int :=
  (ls.filter (fun l => decide (l.employee.emp_id = e ∧
      l.leave_type.leave_type_id = lt ∧ l.year = y ∧
      l.status = LeaveStatus.APPROVED))).foldl
    (fun acc l => acc + l.days_requested) 0

/-- HR `get_leave_balance` used days: `self.leaves.filter(leave_type=…,
status='APPROVED', start_date__year=year)` — the filter derives the
year from `start_date` (the HR model has no stored `year` column). -/
def hrUsedDays (ls : List LeaveApplication) (e lt : Nat) (y : Int) : Int :=
  (ls.filter (fun l => decide (l.employee.emp_id = e ∧
      l.leave_type.leave_type_id = lt ∧
      l.status = LeaveStatus.APPROVED ∧ yearOf l.start_date = y))).foldl
    (fun acc l => acc + l.days_requested) 0

example : yearOf 0 = 1970 := by decide
example : yearOf 20270 = 2025 := by decide

/-- `super().save()` on an instance whose primary key already carries a
value (Django UPDATEs the matching row, INSERTing when none exists):
when only some columns are listed in `update_fields`, exactly those
columns of the stored row are overwritten, which the caller passes as
the row transformer `f`; `ins` is the full instance for the INSERT
case. -/
def upsertWith (id : Nat) (f : LeaveApplication → LeaveApplication)
    (ins : LeaveApplication) : List LeaveApplication → List LeaveApplication
  | [] => [ins]
  | r :: rest =>
    if r.leave_id = id then f r :: rest else r :: upsertWith id f ins rest

/-- backend `Employee.can_apply_leave(start_date, end_date, leave_type)`
(backend/app/models.py lines 110-177).  Returns the Python outcome and
the store as left behind (the method *writes*: it creates the missing
`LeaveBalance` row).  The insufficient-balance branch raises
`AttributeError`: its f-string reads `leave_type.name`, but the
`LeaveType` model's field is `leave_name`. -/
def backendCanApplyLeave (emp : Employee) (start_date end_date : Int)
    (lt : LeaveType) (today : Int) (db : DB) :
    Except PyErr (Bool × List Violation) × DB :=
  let requested_days := (end_date - start_date) + 1
  let year := yearOf start_date
  let acc : Int × List LeaveBalance :=
    match findBalance db.balances emp.emp_id lt.leave_type_id year with
    | some lb => (lb.balance, db.balances)
    | none =>
      (lt.annual_allocation,
        db.balances ++ [⟨emp.emp_id, lt.leave_type_id, year, lt.annual_allocation⟩])
  let available_balance := acc.1
  let db' : DB := { db with balances := acc.2 }
  let consumed_days := consumedDays db.leaves emp.emp_id lt.leave_type_id year
  let remaining_balance := available_balance - consumed_days
  if requested_days > remaining_balance then
    (Except.error PyErr.attributeError, db')
  else
    let errors : List Violation :=
      (if requested_days ≤ 0 then [Violation.leaveDurationAtLeastOneDay] else [])
      ++ (if start_date < today then [Violation.cannotApplyInPast] else [])
      ++ (if end_date < start_date then [Violation.endBeforeStart] else [])
    let overlapping := db.leaves.filter (fun l =>
      decide (l.employee.emp_id = emp.emp_id ∧ l.start_date ≤ end_date ∧
        l.end_date ≥ start_date ∧ l.status = LeaveStatus.APPROVED ∧
        l.leave_id ≠ emp.emp_id))
    let errors := errors ++
      (if overlapping.isEmpty then [] else [Violation.overlapsApprovedLeave])
    (Except.ok (errors.isEmpty, errors), db')

/-- The remaining balance the backend sufficiency check compares
`requested_days` against (backend/app/models.py lines 121-148):
the stored `LeaveBalance.balance` when the row exists (else the
type's `annual_allocation`) *minus* the aggregated approved days. -/
def backendRemainingBalance (emp : Employee) (lt : LeaveType)
    (start_date : Int) (db : DB) : Int :=
  let year := yearOf start_date
  let available_balance :=
    match findBalance db.balances emp.emp_id lt.leave_type_id year with
    | some lb => lb.balance
    | none => lt.annual_allocation
  available_balance - consumedDays db.leaves emp.emp_id lt.leave_type_id year

/-- backend `Employee.get_leave_balance(leave_type, year)` (models.py
lines 179-206): the `(total_allocation, consumed, remaining)` dict.
Read-only (no row creation on the miss branch). -/
def backend_get_leave_balance (emp : Employee) (lt : LeaveType) (year : Int)
    (db : DB) : Int × Int × Int :=
  let available_balance :=
    match findBalance db.balances emp.emp_id lt.leave_type_id year with
    | some lb => lb.balance
    | none => lt.annual_allocation
  let consumed := consumedDays db.leaves emp.emp_id lt.leave_type_id year
  (available_balance, consumed, available_balance - consumed)

/-- The stored-ledger reading of the remaining balance (spec §3/§4.3,
"stored ledger" strategy): the `balance` column itself. -/
def storedLedgerValue (emp : Employee) (lt : LeaveType) (year : Int)
    (db : DB) : Option Int :=
  (findBalance db.balances emp.emp_id lt.leave_type_id year).map
    (fun lb => lb.balance)

/-- The derived reading of the remaining balance (spec §3, "derived"
strategy): `annual_allocation − sum(approved days this year)`. -/
def derivedValue (emp : Employee) (lt : LeaveType) (year : Int)
    (db : DB) : Int :=
  lt.annual_allocation - consumedDays db.leaves emp.emp_id lt.leave_type_id year

/-- backend `LeaveManagement.approve(comments=None)` (models.py lines
403-423).  Guard, re-run of `can_apply_leave`, field updates, ledger
debit by `days_requested`, then `save(update_fields=['status',
'comments', 'validated_on'])` — the internal save recomputes
`days_requested`/`year` on the instance but persists only the three
listed columns. -/
def backendApprove (l : LeaveApplication) (comments : Option String)
    (db : DB) (today : Int) : Except PyErr LeaveApplication × DB :=
  if l.status ≠ LeaveStatus.PENDING then
    (Except.error PyErr.validationError, db)
  else
    match backendCanApplyLeave l.employee l.start_date l.end_date
        l.leave_type today db with
    | (Except.error e, db') => (Except.error e, db')
    | (Except.ok (can_apply, _errors), db') =>
      if !can_apply then (Except.error PyErr.validationError, db')
      else
        let l₁ := { l with
          status := LeaveStatus.APPROVED
          validated_on := some today
          comments := match comments with
            | some c => some c
            | none => l.comments }
        let db₂ : DB := { db' with
          balances := applyBalanceDelta l₁.employee.emp_id
            l₁.leave_type.leave_type_id l₁.year
            l₁.leave_type.annual_allocation (-l₁.days_requested) db'.balances }
        let l₂ := { l₁ with
          days_requested := (l₁.end_date - l₁.start_date) + 1
          year := yearOf l₁.start_date }
        let db₃ : DB := { db₂ with
          leaves := upsertWith l₂.leave_id
            (fun r => { r with
              status := l₂.status
              comments := l₂.comments
              validated_on := l₂.validated_on }) l₂ db₂.leaves }
        (Except.ok l₂, db₃)

/-- backend `LeaveManagement.reject(rejection_reason)` (models.py lines
425-436). -/
def backendReject (l : LeaveApplication) (rejection_reason : String)
    (db : DB) (today : Int) : Except PyErr LeaveApplication × DB :=
  if l.status ≠ LeaveStatus.PENDING then
    (Except.error PyErr.validationError, db)
  else if rejection_reason.trim = "" then
    (Except.error PyErr.validationError, db)
  else
    let l₁ := { l with
      status := LeaveStatus.REJECTED
      rejection_reason := some rejection_reason
      validated_on := some today }
    let l₂ := { l₁ with
      days_requested := (l₁.end_date - l₁.start_date) + 1
      year := yearOf l₁.start_date }
    let db' : DB := { db with
      leaves := upsertWith l₂.leave_id
        (fun r => { r with
          status := l₂.status
          rejection_reason := l₂.rejection_reason
          validated_on := l₂.validated_on }) l₂ db.leaves }
    (Except.ok l₂, db')

/-- backend `LeaveManagement.cancel(cancelled_by=None)` (models.py lines
438-456).  The ledger credit (for a previously APPROVED leave) uses
the instance's `days_requested` as it stood when `cancel` ran, before
the internal save recomputes it. -/
def backendCancel (l : LeaveApplication) (cancelled_by : Option Employee)
    (db : DB) (today : Int) : Except PyErr LeaveApplication × DB :=
  if ¬(l.status = LeaveStatus.PENDING ∨ l.status = LeaveStatus.APPROVED) then
    (Except.error PyErr.validationError, db)
  else if l.status = LeaveStatus.APPROVED ∧ l.start_date ≤ today then
    (Except.error PyErr.validationError, db)
  else
    let old_status := l.status
    let l₁ := { l with
      status := LeaveStatus.CANCELLED
      comments := match cancelled_by with
        | some cb => some ("Cancelled by " ++ cb.emp_name ++ " on " ++ toString today)
        | none => l.comments }
    let db₁ : DB :=
      if old_status = LeaveStatus.APPROVED then
        { db with
          balances := applyBalanceDelta l₁.employee.emp_id
            l₁.leave_type.leave_type_id l₁.year
            l₁.leave_type.annual_allocation l₁.days_requested db.balances }
      else db
    let l₂ := { l₁ with
      days_requested := (l₁.end_date - l₁.start_date) + 1
      year := yearOf l₁.start_date }
    let db₂ : DB := { db₁ with
      leaves := upsertWith l₂.leave_id
        (fun r => { r with
          status := l₂.status
          comments := l₂.comments })
        l₂ db₁.leaves }
    (Except.ok l₂, db₂)

/-- backend `LeaveManagement.can_be_cancelled()` (models.py lines
470-478). -/
def can_be_cancelled (l : LeaveApplication) (today : Int) : Bool :=
  if l.status = LeaveStatus.REJECTED ∨ l.status = LeaveStatus.CANCELLED then
    false
  else if l.status = LeaveStatus.APPROVED ∧ l.start_date ≤ today then
    false
  else
    true

/-- backend `LeaveManagement.save` (models.py lines 391-401) together
with the `clean` it triggers (lines 373-389).  `days_requested` and
`year` are recomputed unconditionally (`start_date`/`end_date` are
non-null columns).  `full_clean` runs exactly when `status ==
'PENDING'`: the pk column defaults to `uuid4` at instantiation, so
`not self.pk` is always false. -/
def backendLeaveSave (l : LeaveApplication) (db : DB) (today : Int) :
    Except PyErr LeaveApplication × DB :=
  let l₁ := { l with
    days_requested := (l.end_date - l.start_date) + 1
    year := yearOf l.start_date }
  if l₁.status = LeaveStatus.PENDING then
    if l₁.days_requested ≤ 0 then (Except.error PyErr.validationError, db)
    else
      match backendCanApplyLeave l₁.employee l₁.start_date l₁.end_date
          l₁.leave_type today db with
      | (Except.error e, db') => (Except.error e, db')
      | (Except.ok (can_apply, _errors), db') =>
        if !can_apply then (Except.error PyErr.validationError, db')
        else
          (Except.ok l₁,
            { db' with leaves := upsertWith l₁.leave_id (fun _ => l₁) l₁ db'.leaves })
  else
    (Except.ok l₁,
      { db with leaves := upsertWith l₁.leave_id (fun _ => l₁) l₁ db.leaves })

/-- HR `Employee.get_leave_balance(leave_type, year)` (HRManagement/app/
models.py lines 126-146).  When a `LeaveBalance` row exists the method
returns `balance_record.available_days` — `LeaveBalance` has no such
field (its column is `balance`), so that branch raises
`AttributeError`.  Otherwise the balance is derived:
`max(0, annual_allocation − used)`. -/
def hrGetLeaveBalance (emp : Employee) (lt : LeaveType) (year : Int)
    (db : DB) : Except PyErr Int :=
  match findBalance db.balances emp.emp_id lt.leave_type_id year with
  | some _ => Except.error PyErr.attributeError
  | none =>
    Except.ok (max 0 (lt.annual_allocation -
      hrUsedDays db.leaves emp.emp_id lt.leave_type_id year))

/-- HR `Employee.can_apply_leave(start_date, end_date, leave_type)`
(HRManagement/app/models.py lines 148-214).  Checks run in source
order, appending a violation each; the max-consecutive-days and
notice-period messages interpolate `leave_type.name` — `LeaveType`'s
field is `leave_name` — so those two branches raise `AttributeError`
while building the message.  The method only reads the store. -/
def hrCanApplyLeave (emp : Employee) (start_date end_date : Int)
    (lt : LeaveType) (today : Int) (db : DB) :
    Except PyErr (Bool × List Violation) :=
  let errors : List Violation :=
    (if !emp.is_active then [Violation.inactiveEmployee] else [])
    ++ (if start_date < emp.hire_date then [Violation.beforeJoiningDate] else [])
    ++ (match emp.resignation_date with
        | some r => if start_date > r then [Violation.afterResignationDate] else []
        | none => [])
    ++ (if end_date < start_date then [Violation.endBeforeStart] else [])
    ++ (if start_date < today then [Violation.pastDates] else [])
  let days_requested := (end_date - start_date) + 1
  let errors := errors ++
    (if !lt.is_active then [Violation.leaveTypeInactive] else [])
  match hrGetLeaveBalance emp lt (yearOf start_date) db with
  | Except.error e => Except.error e
  | Except.ok current_balance =>
    let errors := errors ++
      (if days_requested > current_balance then [Violation.insufficientBalance]
       else [])
    if days_requested > lt.max_consecutive_days then
      Except.error PyErr.attributeError
    else if (start_date - today) < lt.min_notice_days then
      Except.error PyErr.attributeError
    else
      let overlapping := db.leaves.filter (fun l =>
        decide (l.employee.emp_id = emp.emp_id ∧
          (l.status = LeaveStatus.PENDING ∨ l.status = LeaveStatus.APPROVED) ∧
          l.start_date ≤ end_date ∧ l.end_date ≥ start_date))
      let errors := errors ++
        (if overlapping.isEmpty then [] else [Violation.overlapsExistingLeave])
      Except.ok (errors.isEmpty, errors)

/-- The concrete fields of the HR variant's `LeaveManagement` model
(HRManagement/app/models.py lines 391-408), the list Django's
`save(update_fields=...)` validates names against. -/
def hrLeaveConcreteFields : List String :=
  ["leave_id", "employee", "leave_type", "start_date", "end_date",
   "days_requested", "reason", "status", "applied_on", "incharge",
   "validated_on", "comments"]

/-- Django's `save(update_fields=...)` field-name check: a `ValueError`
when a listed name is not a concrete field of the model. -/
def hrCheckUpdateFields (update_fields : List String) : Except PyErr Unit :=
  if update_fields.all (fun f => hrLeaveConcreteFields.contains f) then
    Except.ok ()
  else
    Except.error PyErr.valueError

/-- HR `LeaveManagement.approve(approved_by, comments=None)`
(HRManagement/app/models.py lines 457-471).  `manager` is the result
of `self.employee.get_current_manager()` (lines 111-114), passed in
as a parameter so the theorem quantifies over every resolution.  The
attempted `save(update_fields=['status', 'approved_by', 'approved_on',
'comments'])` skips `full_clean` (status is `'APPROVED'`), skips the
`approved_on` timestamp branch (the attribute was just assigned), and
then fails Django's field-name check: `approved_by` and `approved_on`
are not fields of this model. -/
def hrApprove (l : LeaveApplication) (approved_by : Employee)
    (comments : Option String) (manager : Option Employee) (today : Int) :
    Except PyErr LeaveApplication :=
  if l.status ≠ LeaveStatus.PENDING then
    Except.error PyErr.validationError
  else if ¬(manager = some l.employee) ∧ ¬(some approved_by = manager) then
    Except.error PyErr.validationError
  else
    let l₁ := { l with
      status := LeaveStatus.APPROVED
      comments := match comments with
        | some c => some c
        | none => l.comments }
    let l₂ := { l₁ with days_requested := (l₁.end_date - l₁.start_date) + 1 }
    match hrCheckUpdateFields
        ["status", "approved_by", "approved_on", "comments"] with
    | Except.error e => Except.error e
    | Except.ok _ => Except.ok l₂

/-- HR `LeaveManagement.reject(rejected_by, rejection_reason)`
(HRManagement/app/models.py lines 473-485).  The attempted
`save(update_fields=['status', 'approved_by', 'approved_on',
'rejection_reason'])` skips `full_clean` (status `'REJECTED'`), skips
the `approved_on` branch (status is not `'APPROVED'`), then fails the
field-name check: none of `approved_by`, `approved_on`,
`rejection_reason` are fields of this model. -/
def hrReject (l : LeaveApplication) (rejected_by : Employee)
    (rejection_reason : String) (today : Int) :
    Except PyErr LeaveApplication :=
  if l.status ≠ LeaveStatus.PENDING then
    Except.error PyErr.validationError
  else if rejection_reason.trim = "" then
    Except.error PyErr.validationError
  else
    let l₁ := { l with status := LeaveStatus.REJECTED }
    let l₂ := { l₁ with days_requested := (l₁.end_date - l₁.start_date) + 1 }
    match hrCheckUpdateFields
        ["status", "approved_by", "approved_on", "rejection_reason"] with
    | Except.error e => Except.error e
    | Except.ok _ => Except.ok l₂

/-- The Eligibility Validator as the spec words it (§4.1): the nine
checks in the listed order, accumulating every violated check's
message, result `(violations.empty, violations)`.  Check 8 uses the
derived balance strategy of §3 (`allocation − sum(approved days this
year)`), the strategy of the HR variant. -/
def specEvaluate (emp : Employee) (lt : LeaveType)
    (start_date end_date today : Int) (db : DB) : Bool × List Violation :=
  let requested_days := (end_date - start_date) + 1
  let violations : List Violation :=
    (if !emp.is_active then [Violation.inactiveEmployee] else [])
    ++ (if start_date < emp.hire_date then [Violation.beforeJoiningDate] else [])
    ++ (match emp.resignation_date with
        | some r => if start_date > r then [Violation.afterResignationDate] else []
        | none => [])
    ++ (if end_date < start_date then [Violation.endBeforeStart] else [])
    ++ (if start_date < today then [Violation.pastDates] else [])
    ++ (if !lt.is_active then [Violation.leaveTypeInactive] else [])
    ++ (if requested_days > lt.max_consecutive_days then
          [Violation.maxConsecutiveExceeded] else [])
    ++ (if (start_date - today) < lt.min_notice_days then
          [Violation.noticeTooShort] else [])
    ++ (if requested_days >
          lt.annual_allocation -
            hrUsedDays db.leaves emp.emp_id lt.leave_type_id (yearOf start_date)
        then [Violation.insufficientBalance] else [])
    ++ (if (db.leaves.filter (fun l =>
          decide (l.employee.emp_id = emp.emp_id ∧
            (l.status = LeaveStatus.PENDING ∨ l.status = LeaveStatus.APPROVED) ∧
            l.start_date ≤ end_date ∧ l.end_date ≥ start_date))).isEmpty
        then [] else [Violation.overlapsExistingLeave])
  (violations.isEmpty, violations)

/-- `EmployeeStatus` (job-assignment) row — both variants' field set as
far as the current-assignment logic uses it. -/
structure EmployeeStatus where
  st_id : Nat
  employee : Employee
  job : Nat
  start_date : Int
  end_date : Option Int
  salary : Int
  is_current : Bool
deriving DecidableEq, Repr

/-- `super().save()` for an `EmployeeStatus` instance: UPDATE of the row
with the same primary key, INSERT when absent. -/
def statusUpsert (s : EmployeeStatus) :
    List EmployeeStatus → List EmployeeStatus
  | [] => [s]
  | r :: rest =>
    if r.st_id = s.st_id then s :: rest else r :: statusUpsert s rest

/-- `EmployeeStatus.save` (backend/app/models.py lines 252-260; the HR
variant, HRManagement/app/models.py lines 296-306, is identical for
the fields modelled here): `full_clean` first (lines 241-250), then,
when the instance is current, every *other* current row of the same
employee is bulk-updated to `is_current=False, end_date=today`, and
finally the instance itself is written. -/
def employeeStatusSave (s : EmployeeStatus) (rows : List EmployeeStatus)
    (today : Int) : Except PyErr (List EmployeeStatus) :=
  if (match s.end_date with
      | some e => decide (e < s.start_date)
      | none => false) then
    Except.error PyErr.validationError
  else if s.start_date < s.employee.hire_date then
    Except.error PyErr.validationError
  else if s.salary ≤ 0 then
    Except.error PyErr.validationError
  else
    let rows₁ :=
      if s.is_current then
        rows.map (fun r =>
          if r.employee.emp_id = s.employee.emp_id ∧ r.is_current ∧
              r.st_id ≠ s.st_id then
            { r with is_current := false, end_date := some today }
          else r)
      else rows
    Except.ok (statusUpsert s rows₁)

/-- Two assignment rows witness a violation of the
`unique_current_status_per_employee` constraint when both are current
for the same employee. -/
def currentConflict (a b : EmployeeStatus) : Prop :=
  a.is_current ∧ b.is_current ∧ a.employee.emp_id = b.employee.emp_id

instance (a b : EmployeeStatus) : Decidable (currentConflict a b) := by
  unfold currentConflict
  infer_instance

/-- The invariant of the claim: no two rows are simultaneously current
for one employee — i.e. at most one `is_current = true` row per
employee. -/
def uniqueCurrent (rows : List EmployeeStatus) : Prop :=
  rows.Pairwise (fun a b => ¬ currentConflict a b)

/-- Primary-key uniqueness across the stored rows (every reachable
database state has it; `st_id` is the table's primary key). -/
def nodupIds (rows : List EmployeeStatus) : Prop :=
  (rows.map (fun r => r.st_id)).Nodup

/-- Whether a Python call completed without raising. -/
def exceptOk {α : Type} : Except PyErr α → Bool
  | Except.ok _ => true
  | Except.error _ => false

/-- Claim C8: for every leave application, `can_be_cancelled` is a pure
predicate that returns true exactly when a `cancel` call evaluated at
the same moment would succeed: true iff status ∈ {PENDING, APPROVED}
and not (status = APPROVED and start_date ≤ today). -/
theorem can_be_cancelled_iff_cancel_succeeds
    (l : LeaveApplication) (cancelled_by : Option Employee) (db : DB)
    (today : Int) :
    (can_be_cancelled l today = true ↔
      exceptOk (backendCancel l cancelled_by db today).1 = true) ∧
    (can_be_cancelled l today = true ↔
      ((l.status = LeaveStatus.PENDING ∨ l.status = LeaveStatus.APPROVED) ∧
        ¬(l.status = LeaveStatus.APPROVED ∧ l.start_date ≤ today))) := by
  unfold can_be_cancelled backendCancel
  cases hs : l.status <;> by_cases h : l.start_date ≤ today <;>
    simp [hs, h, exceptOk]

/-- Claim C4: `reject` fails when status ≠ PENDING; `approve` fails when
status ≠ PENDING; `cancel` fails when status ∉ {PENDING, APPROVED},
and `cancel` of an APPROVED leave additionally fails when start_date ≤
today; in every such failure the stored state (application rows and
ledger) is returned unchanged. -/
theorem transition_guards_fail_and_leave_state_unchanged
    (l : LeaveApplication) (db : DB) (today : Int) (comments : Option String)
    (rejection_reason : String) (cancelled_by : Option Employee) :
    (l.status ≠ LeaveStatus.PENDING →
      backendApprove l comments db today =
        (Except.error PyErr.validationError, db)) ∧
    (l.status ≠ LeaveStatus.PENDING →
      backendReject l rejection_reason db today =
        (Except.error PyErr.validationError, db)) ∧
    (¬(l.status = LeaveStatus.PENDING ∨ l.status = LeaveStatus.APPROVED) →
      backendCancel l cancelled_by db today =
        (Except.error PyErr.validationError, db)) ∧
    (l.status = LeaveStatus.APPROVED → l.start_date ≤ today →
      backendCancel l cancelled_by db today =
        (Except.error PyErr.validationError, db)) := by
  refine ⟨fun h => ?_, fun h => ?_, fun h => ?_, fun h h' => ?_⟩
  · unfold backendApprove
    simp [h]
  · unfold backendReject
    simp [h]
  · unfold backendCancel
    simp [h]
  · unfold backendCancel
    simp [h, h']

/-- Closed instance of `transition_guards_fail_and_leave_state_unchanged`
at concrete inputs discharging each hypothesis. -/
theorem transition_guards_fail_witness :
    (backendApprove
        ⟨1, ⟨10, "A", 0, none, true⟩, ⟨5, "Annual", 20, 7, 1, true⟩,
          100, 104, 5, "r", LeaveStatus.REJECTED, none, none, none, 1970⟩
        none ⟨[], []⟩ 50 =
      (Except.error PyErr.validationError, (⟨[], []⟩ : DB))) ∧
    (backendReject
        ⟨1, ⟨10, "A", 0, none, true⟩, ⟨5, "Annual", 20, 7, 1, true⟩,
          100, 104, 5, "r", LeaveStatus.REJECTED, none, none, none, 1970⟩
        "bad" ⟨[], []⟩ 50 =
      (Except.error PyErr.validationError, (⟨[], []⟩ : DB))) ∧
    (backendCancel
        ⟨1, ⟨10, "A", 0, none, true⟩, ⟨5, "Annual", 20, 7, 1, true⟩,
          100, 104, 5, "r", LeaveStatus.REJECTED, none, none, none, 1970⟩
        none ⟨[], []⟩ 50 =
      (Except.error PyErr.validationError, (⟨[], []⟩ : DB))) ∧
    (backendCancel
        ⟨1, ⟨10, "A", 0, none, true⟩, ⟨5, "Annual", 20, 7, 1, true⟩,
          100, 104, 5, "r", LeaveStatus.APPROVED, none, none, none, 1970⟩
        none ⟨[], []⟩ 150 =
      (Except.error PyErr.validationError, (⟨[], []⟩ : DB))) := by
  refine ⟨?_, ?_, ?_, ?_⟩
  · exact (transition_guards_fail_and_leave_state_unchanged _ _ _ _ "bad" none).1
      (by decide)
  · exact (transition_guards_fail_and_leave_state_unchanged _ _ _ none "bad"
      none).2.1 (by decide)
  · exact (transition_guards_fail_and_leave_state_unchanged _ _ _ none "bad"
      none).2.2.1 (by decide)
  · exact (transition_guards_fail_and_leave_state_unchanged _ _ _ none "bad"
      none).2.2.2 (by decide) (by decide)

/-- Claim C7: for every leave application (both date columns are
non-null), any `save` that completes leaves `days_requested` equal to
`(end_date − start_date).days + 1`, recomputed on that save regardless
of the previously stored value. -/
theorem days_requested_recomputed_on_save
    (l : LeaveApplication) (db : DB) (today : Int) (l' : LeaveApplication)
    (db' : DB)
    (h : backendLeaveSave l db today = (Except.ok l', db')) :
    l'.days_requested = (l'.end_date - l'.start_date) + 1 ∧
      l'.start_date = l.start_date ∧ l'.end_date = l.end_date := by
  unfold backendLeaveSave at h
  dsimp only at h
  split at h
  · split at h
    · simp at h
    · split at h
      · simp at h
      · split at h
        · simp at h
        · obtain ⟨h1, -⟩ := Prod.mk.injEq _ _ _ _ |>.mp h
          obtain rfl := (Except.ok.injEq _ _).mp h1
          simp
  · obtain ⟨h1, -⟩ := Prod.mk.injEq _ _ _ _ |>.mp h
    obtain rfl := (Except.ok.injEq _ _).mp h1
    simp

/-- Closed instance of `days_requested_recomputed_on_save`: a save of an
application stored with a stale `days_requested = 99` completes with
the recomputed value. -/
theorem days_requested_recomputed_on_save_witness :
    (⟨1, ⟨10, "A", 0, none, true⟩, ⟨5, "Annual", 20, 7, 1, true⟩, 100, 104,
        5, "r", LeaveStatus.APPROVED, none, none, none, 1970⟩ :
      LeaveApplication).days_requested =
      ((⟨1, ⟨10, "A", 0, none, true⟩, ⟨5, "Annual", 20, 7, 1, true⟩, 100, 104,
          5, "r", LeaveStatus.APPROVED, none, none, none, 1970⟩ :
        LeaveApplication).end_date -
        (⟨1, ⟨10, "A", 0, none, true⟩, ⟨5, "Annual", 20, 7, 1, true⟩, 100, 104,
            5, "r", LeaveStatus.APPROVED, none, none, none, 1970⟩ :
          LeaveApplication).start_date) + 1 :=
  (days_requested_recomputed_on_save
    ⟨1, ⟨10, "A", 0, none, true⟩, ⟨5, "Annual", 20, 7, 1, true⟩, 100, 104,
      99, "r", LeaveStatus.APPROVED, none, none, none, 0⟩
    ⟨[], []⟩ 50
    ⟨1, ⟨10, "A", 0, none, true⟩, ⟨5, "Annual", 20, 7, 1, true⟩, 100, 104,
      5, "r", LeaveStatus.APPROVED, none, none, none, 1970⟩
    ⟨[⟨1, ⟨10, "A", 0, none, true⟩, ⟨5, "Annual", 20, 7, 1, true⟩, 100, 104,
        5, "r", LeaveStatus.APPROVED, none, none, none, 1970⟩], []⟩
    rfl).1

/-- Claim C10: in the HRManagement variant no call to `approve` or
`reject` ever completes: whatever the application's status, approver,
manager resolution, comments or reason, the method raises — the guard
failures raise `ValidationError`, and the remaining paths reach
`save(update_fields=...)` naming `approved_by` / `approved_on` /
`rejection_reason`, which are not fields of that variant's
`LeaveManagement` model, so Django raises `ValueError`. -/
theorem hr_approve_reject_always_fail
    (l : LeaveApplication) (approved_by rejected_by : Employee)
    (comments : Option String) (manager : Option Employee)
    (rejection_reason : String) (today : Int) :
    ¬("approved_by" ∈ hrLeaveConcreteFields) ∧
    exceptOk (hrApprove l approved_by comments manager today) = false ∧
    exceptOk (hrReject l rejected_by rejection_reason today) = false := by
  refine ⟨by decide, ?_, ?_⟩
  · unfold hrApprove
    split
    · rfl
    · split
      · rfl
      · rfl
  · unfold hrReject
    split
    · rfl
    · split
      · rfl
      · rfl

/-- Looking up the unique balance key after `_update_leave_balance`:
the row's balance has the delta applied (seeded when absent). -/
theorem findBalance_applyBalanceDelta_self (bs : List LeaveBalance)
    (e lt : Nat) (y : Int) (seed delta : Int) :
    findBalance (applyBalanceDelta e lt y seed delta bs) e lt y =
      some (match findBalance bs e lt y with
        | some r => { r with balance := r.balance + delta }
        | none => ⟨e, lt, y, seed + delta⟩) := by
  induction bs with
  | nil => simp [findBalance, applyBalanceDelta]
  | cons r rest ih =>
    by_cases h : r.employee = e ∧ r.leave_type = lt ∧ r.year = y
    · simp [findBalance, applyBalanceDelta, h]
    · simp only [applyBalanceDelta, if_neg h]
      simp only [findBalance, List.find?] at ih ⊢
      rw [decide_eq_false h]
      exact ih

/-- `can_apply_leave` (backend) leaves the store unchanged when the
balance row for the key already exists. -/
theorem backendCanApplyLeave_db_of_found (emp : Employee) (s e : Int)
    (lt : LeaveType) (today : Int) (db : DB) (lb : LeaveBalance)
    (h : findBalance db.balances emp.emp_id lt.leave_type_id (yearOf s) =
      some lb) :
    (backendCanApplyLeave emp s e lt today db).2 = db := by
  unfold backendCanApplyLeave
  dsimp only
  rw [h]
  split <;> rfl

/-- Claim C1: for a PENDING application stored consistently
(`days_requested` and `year` as every completed save leaves them) whose
ledger row exists, a successful `approve` followed by a successful
`cancel` (necessarily before the leave's start date) returns the stored
`LeaveBalance.balance` for (employee, leave_type, start_date.year) to
exactly its pre-approval value: the debit and credit of
`days_requested` are exact inverses. -/
theorem approve_then_cancel_restores_balance
    (l : LeaveApplication) (comments : Option String)
    (cancelled_by : Option Employee) (db : DB) (t₁ t₂ : Int)
    (l' l'' : LeaveApplication) (db' db'' : DB) (lb : LeaveBalance)
    (hd : l.days_requested = (l.end_date - l.start_date) + 1)
    (hy : l.year = yearOf l.start_date)
    (hb : findBalance db.balances l.employee.emp_id l.leave_type.leave_type_id
        l.year = some lb)
    (ha : backendApprove l comments db t₁ = (Except.ok l', db'))
    (hc : backendCancel l' cancelled_by db' t₂ = (Except.ok l'', db'')) :
    storedLedgerValue l.employee l.leave_type l.year db'' =
      storedLedgerValue l.employee l.leave_type l.year db := by
  unfold backendApprove at ha
  split at ha
  · simp at ha
  · rcases hres : backendCanApplyLeave l.employee l.start_date l.end_date
        l.leave_type t₁ db with ⟨res, dbc⟩
    rw [hres] at ha
    have hdbc : dbc = db := by
      have h0 := backendCanApplyLeave_db_of_found l.employee l.start_date
        l.end_date l.leave_type t₁ db lb (by rw [← hy]; exact hb)
      rw [hres] at h0
      exact h0
    cases res with
    | error e => simp at ha
    | ok p =>
      rcases p with ⟨can, errs⟩
      cases can with
      | false => simp at ha
      | true =>
        simp only [Bool.not_true, Bool.false_eq_true, if_false] at ha
        obtain ⟨ha1, ha2⟩ := Prod.mk.injEq _ _ _ _ |>.mp ha
        obtain rfl := (Except.ok.injEq _ _).mp ha1
        subst hdbc
        subst ha2
        unfold backendCancel at hc
        dsimp only at hc
        simp only [reduceCtorEq, or_false, or_true, not_true_eq_false,
          if_false, false_and, and_false] at hc
        split at hc
        · simp at hc
        · obtain ⟨hc1, hc2⟩ := Prod.mk.injEq _ _ _ _ |>.mp hc
          subst hc2
          unfold storedLedgerValue
          dsimp only
          rw [← hy]
          simp only [if_true]
          rw [findBalance_applyBalanceDelta_self]
          rw [findBalance_applyBalanceDelta_self]
          rw [hb, ← hd]
          simp

/-- Closed instance of `approve_then_cancel_restores_balance`: employee
10 with a stored 20-day balance for 1970; a 5-day PENDING leave is
approved (balance 15) and then cancelled before its start (balance
back to 20). -/
theorem approve_then_cancel_restores_balance_witness :
    storedLedgerValue ⟨10, "A", 0, none, true⟩ ⟨5, "Annual", 20, 7, 1, true⟩
        1970
        ⟨[⟨1, ⟨10, "A", 0, none, true⟩, ⟨5, "Annual", 20, 7, 1, true⟩, 100,
            104, 5, "r", LeaveStatus.CANCELLED, some 90, none, none, 1970⟩],
          [⟨10, 5, 1970, 20⟩]⟩ =
      storedLedgerValue ⟨10, "A", 0, none, true⟩ ⟨5, "Annual", 20, 7, 1, true⟩
        1970 ⟨[], [⟨10, 5, 1970, 20⟩]⟩ :=
  approve_then_cancel_restores_balance
    ⟨1, ⟨10, "A", 0, none, true⟩, ⟨5, "Annual", 20, 7, 1, true⟩, 100, 104, 5,
      "r", LeaveStatus.PENDING, none, none, none, 1970⟩
    none none ⟨[], [⟨10, 5, 1970, 20⟩]⟩ 90 95
    ⟨1, ⟨10, "A", 0, none, true⟩, ⟨5, "Annual", 20, 7, 1, true⟩, 100, 104, 5,
      "r", LeaveStatus.APPROVED, some 90, none, none, 1970⟩
    ⟨1, ⟨10, "A", 0, none, true⟩, ⟨5, "Annual", 20, 7, 1, true⟩, 100, 104, 5,
      "r", LeaveStatus.CANCELLED, some 90, none, none, 1970⟩
    ⟨[⟨1, ⟨10, "A", 0, none, true⟩, ⟨5, "Annual", 20, 7, 1, true⟩, 100, 104,
        5, "r", LeaveStatus.APPROVED, some 90, none, none, 1970⟩],
      [⟨10, 5, 1970, 15⟩]⟩
    ⟨[⟨1, ⟨10, "A", 0, none, true⟩, ⟨5, "Annual", 20, 7, 1, true⟩, 100, 104,
        5, "r", LeaveStatus.CANCELLED, some 90, none, none, 1970⟩],
      [⟨10, 5, 1970, 20⟩]⟩
    ⟨10, 5, 1970, 20⟩
    (by decide) (by decide) (by decide) rfl rfl

/-- Claim C2 counterexample.  A reachable store (it is exactly the state
`backendApprove` leaves behind in the witness of C1: the 5-day leave
APPROVED and the ledger debited to 15): the sufficiency check then
compares against 15 − 5 = 10, which equals neither the stored ledger
value 15 nor the derived value 20 − 5 = 15 — the two strategies are
mixed, double-counting the approved days. -/
theorem remaining_balance_mixes_strategies_cex :
    backendRemainingBalance ⟨10, "A", 0, none, true⟩
        ⟨5, "Annual", 20, 7, 1, true⟩ 100
        ⟨[⟨1, ⟨10, "A", 0, none, true⟩, ⟨5, "Annual", 20, 7, 1, true⟩, 100,
            104, 5, "r", LeaveStatus.APPROVED, some 90, none, none, 1970⟩],
          [⟨10, 5, 1970, 15⟩]⟩ = 10 ∧
    storedLedgerValue ⟨10, "A", 0, none, true⟩ ⟨5, "Annual", 20, 7, 1, true⟩
        1970
        ⟨[⟨1, ⟨10, "A", 0, none, true⟩, ⟨5, "Annual", 20, 7, 1, true⟩, 100,
            104, 5, "r", LeaveStatus.APPROVED, some 90, none, none, 1970⟩],
          [⟨10, 5, 1970, 15⟩]⟩ = some 15 ∧
    derivedValue ⟨10, "A", 0, none, true⟩ ⟨5, "Annual", 20, 7, 1, true⟩ 1970
        ⟨[⟨1, ⟨10, "A", 0, none, true⟩, ⟨5, "Annual", 20, 7, 1, true⟩, 100,
            104, 5, "r", LeaveStatus.APPROVED, some 90, none, none, 1970⟩],
          [⟨10, 5, 1970, 15⟩]⟩ = 15 ∧
    yearOf 100 = 1970 ∧ (10 : Int) ≠ 15 := by
  refine ⟨by decide, by decide, by decide, by decide, by decide⟩

/-- Claim C2, amended: the backend sufficiency check's remaining balance
is `stored LeaveBalance.balance − sum(approved days this year)`
whenever the ledger row exists — both strategies applied together
(the approved days are debited from the stored balance *and*
subtracted again), not a single source of truth; `get_leave_balance`
reports the same mixed value. -/
theorem remaining_balance_eq_stored_minus_consumed
    (emp : Employee) (lt : LeaveType) (start_date : Int) (db : DB)
    (lb : LeaveBalance)
    (h : findBalance db.balances emp.emp_id lt.leave_type_id
      (yearOf start_date) = some lb) :
    backendRemainingBalance emp lt start_date db =
      lb.balance -
        consumedDays db.leaves emp.emp_id lt.leave_type_id (yearOf start_date) ∧
    backendRemainingBalance emp lt start_date db =
      (backend_get_leave_balance emp lt (yearOf start_date) db).2.2 := by
  unfold backendRemainingBalance backend_get_leave_balance
  dsimp only
  rw [h]
  exact ⟨rfl, rfl⟩

/-- Closed instance of `remaining_balance_eq_stored_minus_consumed` at
the counterexample store. -/
theorem remaining_balance_eq_stored_minus_consumed_witness :
    backendRemainingBalance ⟨10, "A", 0, none, true⟩
        ⟨5, "Annual", 20, 7, 1, true⟩ 100
        ⟨[⟨1, ⟨10, "A", 0, none, true⟩, ⟨5, "Annual", 20, 7, 1, true⟩, 100,
            104, 5, "r", LeaveStatus.APPROVED, some 90, none, none, 1970⟩],
          [⟨10, 5, 1970, 15⟩]⟩ =
      (15 : Int) -
        consumedDays
          [⟨1, ⟨10, "A", 0, none, true⟩, ⟨5, "Annual", 20, 7, 1, true⟩, 100,
            104, 5, "r", LeaveStatus.APPROVED, some 90, none, none, 1970⟩]
          10 5 (yearOf 100) :=
  (remaining_balance_eq_stored_minus_consumed ⟨10, "A", 0, none, true⟩
    ⟨5, "Annual", 20, 7, 1, true⟩ 100
    ⟨[⟨1, ⟨10, "A", 0, none, true⟩, ⟨5, "Annual", 20, 7, 1, true⟩, 100, 104,
        5, "r", LeaveStatus.APPROVED, some 90, none, none, 1970⟩],
      [⟨10, 5, 1970, 15⟩]⟩
    ⟨10, 5, 1970, 15⟩ (by decide)).1

/-- Claim C9 counterexample: evaluating the backend `can_apply_leave` on
a store with no `LeaveBalance` row for the key is not pure — it
creates one (seeded with the leave type's `annual_allocation`), even
though the request is admissible and nothing was mutated by intent. -/
theorem backend_can_apply_creates_balance_row_cex :
    (backendCanApplyLeave ⟨10, "A", 0, none, true⟩ 100 104
        ⟨5, "Annual", 20, 7, 1, true⟩ 90 ⟨[], []⟩).2 ≠ (⟨[], []⟩ : DB) ∧
    (backendCanApplyLeave ⟨10, "A", 0, none, true⟩ 100 104
        ⟨5, "Annual", 20, 7, 1, true⟩ 90 ⟨[], []⟩).2.balances =
      [⟨10, 5, 1970, 20⟩] := by
  refine ⟨by decide, by decide⟩

/-- Claim C9, amended: the HRManagement variant's validator only reads
the store (it is embedded as a function returning no modified state,
mirroring a method body with no ORM write), while the backend
variant's sole write is lazily creating the missing `LeaveBalance`
row for (employee, leave_type, start_date.year), seeded with
`annual_allocation`; on stores where that row exists it is pure. -/
theorem can_apply_state_effect_characterization
    (emp : Employee) (s e : Int) (lt : LeaveType) (today : Int) (db : DB) :
    (backendCanApplyLeave emp s e lt today db).2 =
      (match findBalance db.balances emp.emp_id lt.leave_type_id (yearOf s) with
       | some _ => db
       | none => { db with balances := db.balances ++
           [⟨emp.emp_id, lt.leave_type_id, yearOf s, lt.annual_allocation⟩] }) := by
  unfold backendCanApplyLeave
  dsimp only
  cases h : findBalance db.balances emp.emp_id lt.leave_type_id (yearOf s) with
  | some lb => split <;> rfl
  | none => split <;> rfl

/-- Membership in a conditionally-appended singleton violation list. -/
theorem mem_ite_singleton {α : Type} (p : Prop) [Decidable p] (v w : α) :
    (v ∈ if p then [w] else []) ↔ p ∧ v = w := by
  split <;> simp_all

/-- Membership in a conditionally-empty singleton violation list. -/
theorem mem_ite_singleton_neg {α : Type} (p : Prop) [Decidable p] (v w : α) :
    (v ∈ if p then [] else [w]) ↔ ¬p ∧ v = w := by
  split <;> simp_all

/-- Claim C6 counterexample: the backend variant does not flag a new
request overlapping an existing PENDING application of the same
employee (its filter matches only `status='APPROVED'`): the request
[100, 104] is admitted with no violations although PENDING [102, 106]
overlaps it. -/
theorem backend_overlap_ignores_pending_cex :
    (backendCanApplyLeave ⟨10, "A", 0, none, true⟩ 100 104
        ⟨5, "Annual", 20, 7, 1, true⟩ 90
        ⟨[⟨2, ⟨10, "A", 0, none, true⟩, ⟨5, "Annual", 20, 7, 1, true⟩, 102,
            106, 5, "r", LeaveStatus.PENDING, none, none, none, 1970⟩],
          [⟨10, 5, 1970, 20⟩]⟩).1 = Except.ok (true, []) ∧
    ((⟨2, ⟨10, "A", 0, none, true⟩, ⟨5, "Annual", 20, 7, 1, true⟩, 102, 106,
        5, "r", LeaveStatus.PENDING, none, none, none, 1970⟩ :
      LeaveApplication).status = LeaveStatus.PENDING ∧
      (102 : Int) ≤ 104 ∧ (106 : Int) ≥ 100) := by
  refine ⟨rfl, by decide, by decide, by decide⟩

/-- Claim C6, amended: in the HRManagement variant a returned violation
list flags overlap exactly when some existing PENDING-or-APPROVED
application of the employee satisfies the inclusive-inclusive test;
in the backend variant only APPROVED applications (further excluding
any row whose pk equals the employee's pk, a no-op `exclude` in the
source) trigger the flag — PENDING overlaps are admitted. -/
theorem overlap_flag_characterization
    (emp : Employee) (s e : Int) (lt : LeaveType) (today : Int) (db : DB)
    (admissible : Bool) (v : List Violation) :
    (hrCanApplyLeave emp s e lt today db = Except.ok (admissible, v) →
      (Violation.overlapsExistingLeave ∈ v ↔
        ∃ ex ∈ db.leaves, ex.employee.emp_id = emp.emp_id ∧
          (ex.status = LeaveStatus.PENDING ∨ ex.status = LeaveStatus.APPROVED) ∧
          ex.start_date ≤ e ∧ ex.end_date ≥ s)) ∧
    ((backendCanApplyLeave emp s e lt today db).1 = Except.ok (admissible, v) →
      (Violation.overlapsApprovedLeave ∈ v ↔
        ∃ ex ∈ db.leaves, ex.employee.emp_id = emp.emp_id ∧
          ex.start_date ≤ e ∧ ex.end_date ≥ s ∧
          ex.status = LeaveStatus.APPROVED ∧ ex.leave_id ≠ emp.emp_id)) := by
  constructor
  · intro h
    unfold hrCanApplyLeave at h
    dsimp only at h
    cases hgb : hrGetLeaveBalance emp lt (yearOf s) db with
    | error err =>
      rw [hgb] at h
      simp at h
    | ok bal =>
      rw [hgb] at h
      dsimp only at h
      split at h
      · simp at h
      split at h
      · simp at h
      rw [Except.ok.injEq, Prod.mk.injEq] at h
      obtain ⟨-, hv⟩ := h
      subst hv
      cases hres : emp.resignation_date <;>
        simp [List.mem_append, mem_ite_singleton, mem_ite_singleton_neg,
          List.isEmpty_iff, List.filter_eq_nil_iff, hres, not_forall]
  · intro h
    unfold backendCanApplyLeave at h
    dsimp only at h
    split at h
    · simp at h
    rw [Except.ok.injEq, Prod.mk.injEq] at h
    obtain ⟨-, hv⟩ := h
    subst hv
    simp [List.mem_append, mem_ite_singleton, mem_ite_singleton_neg,
      List.isEmpty_iff, List.filter_eq_nil_iff, not_forall]

/-- Closed instance of `overlap_flag_characterization`: the HR variant
flags an APPROVED overlap; the backend variant leaves the PENDING
overlap of the counterexample unflagged. -/
theorem overlap_flag_characterization_witness :
    (Violation.overlapsExistingLeave ∈ [Violation.overlapsExistingLeave] ↔
      ∃ ex ∈ [(⟨2, ⟨10, "A", 0, none, true⟩, ⟨5, "Annual", 20, 7, 3, true⟩,
          102, 106, 5, "r", LeaveStatus.APPROVED, none, none, none, 1970⟩ :
            LeaveApplication)],
        ex.employee.emp_id = 10 ∧
          (ex.status = LeaveStatus.PENDING ∨ ex.status = LeaveStatus.APPROVED) ∧
          ex.start_date ≤ 104 ∧ ex.end_date ≥ 100) ∧
    (Violation.overlapsApprovedLeave ∈ ([] : List Violation) ↔
      ∃ ex ∈ [(⟨2, ⟨10, "A", 0, none, true⟩, ⟨5, "Annual", 20, 7, 1, true⟩,
          102, 106, 5, "r", LeaveStatus.PENDING, none, none, none, 1970⟩ :
            LeaveApplication)],
        ex.employee.emp_id = 10 ∧ ex.start_date ≤ 104 ∧ ex.end_date ≥ 100 ∧
          ex.status = LeaveStatus.APPROVED ∧ ex.leave_id ≠ 10) := by
  constructor
  · exact (overlap_flag_characterization ⟨10, "A", 0, none, true⟩ 100 104
      ⟨5, "Annual", 20, 7, 3, true⟩ 90
      ⟨[⟨2, ⟨10, "A", 0, none, true⟩, ⟨5, "Annual", 20, 7, 3, true⟩, 102, 106,
          5, "r", LeaveStatus.APPROVED, none, none, none, 1970⟩], []⟩
      false [Violation.overlapsExistingLeave]).1 rfl
  · exact (overlap_flag_characterization ⟨10, "A", 0, none, true⟩ 100 104
      ⟨5, "Annual", 20, 7, 1, true⟩ 90
      ⟨[⟨2, ⟨10, "A", 0, none, true⟩, ⟨5, "Annual", 20, 7, 1, true⟩, 102, 106,
          5, "r", LeaveStatus.PENDING, none, none, none, 1970⟩],
        [⟨10, 5, 1970, 20⟩]⟩
      true []).2 rfl

/-- Claim C5 counterexample (spec §8's own worked example: a 25-day
request against max_consecutive_days = 10): instead of returning the
accumulated violations `(false, [max-consecutive, insufficient])` the
HR evaluation raises `AttributeError` — the max-consecutive message
interpolates `leave_type.name`, which is not a field — so the claimed
"(violations.empty, violations)" result is never produced; the spec's
evaluator also orders balance sufficiency after the cap and notice
checks, unlike the source. -/
theorem eligibility_eval_raises_on_cap_violation_cex :
    hrCanApplyLeave ⟨10, "A", 0, none, true⟩ 100 124
        ⟨5, "Annual", 20, 10, 3, true⟩ 90 ⟨[], []⟩ =
      Except.error PyErr.attributeError ∧
    specEvaluate ⟨10, "A", 0, none, true⟩ ⟨5, "Annual", 20, 10, 3, true⟩
        100 124 90 ⟨[], []⟩ =
      (false,
        [Violation.maxConsecutiveExceeded, Violation.insufficientBalance]) :=
  ⟨rfl, rfl⟩

/-- Claim C5, amended: the HR evaluation accumulates the §4.1 checks
without short-circuiting and returns `(violations.empty, violations)`
agreeing with the spec's evaluator — but only on inputs where the
max-consecutive-days and notice checks pass, no stored `LeaveBalance`
row exists for the key, and end_date ≥ start_date (the source checks
balance sufficiency *before* the cap and notice checks, and computes
the derived balance as `max(0, allocation − used)`); on any input
violating the cap or notice check the evaluation instead raises
`AttributeError` while formatting the message. -/
theorem eligibility_checks_characterization
    (emp : Employee) (s e : Int) (lt : LeaveType) (today : Int) (db : DB) :
    (((e - s) + 1 > lt.max_consecutive_days ∨
        s - today < lt.min_notice_days) →
      hrCanApplyLeave emp s e lt today db =
        Except.error PyErr.attributeError) ∧
    (findBalance db.balances emp.emp_id lt.leave_type_id (yearOf s) = none →
      (e - s) + 1 ≤ lt.max_consecutive_days →
      lt.min_notice_days ≤ s - today →
      s ≤ e →
      hrCanApplyLeave emp s e lt today db =
        Except.ok (specEvaluate emp lt s e today db)) := by
  constructor
  · intro hviol
    unfold hrCanApplyLeave
    dsimp only
    cases hgb : hrGetLeaveBalance emp lt (yearOf s) db with
    | error err =>
      unfold hrGetLeaveBalance at hgb
      cases hfb : findBalance db.balances emp.emp_id lt.leave_type_id
          (yearOf s) with
      | none => rw [hfb] at hgb; simp at hgb
      | some lb =>
        rw [hfb] at hgb
        simp only [Except.error.injEq] at hgb
        rw [← hgb]
    | ok bal =>
      dsimp only
      rcases hviol with hcap | hnot
      · rw [if_pos hcap]
      · by_cases hcap : (e - s) + 1 > lt.max_consecutive_days
        · rw [if_pos hcap]
        · rw [if_neg hcap, if_pos hnot]
  · intro hnone hcap hnot hse
    have hmax : ((e - s) + 1 >
        max 0 (lt.annual_allocation -
          hrUsedDays db.leaves emp.emp_id lt.leave_type_id (yearOf s))) ↔
        ((e - s) + 1 >
          lt.annual_allocation -
            hrUsedDays db.leaves emp.emp_id lt.leave_type_id (yearOf s)) := by
      rw [max_def]
      split <;> omega
    unfold hrCanApplyLeave hrGetLeaveBalance specEvaluate
    dsimp only
    rw [hnone]
    dsimp only
    rw [if_neg (not_lt.mpr hcap), if_neg (not_lt.mpr hnot)]
    simp only [hmax, not_lt.mpr hcap, not_lt.mpr hnot, if_neg, if_false,
      List.append_nil, List.nil_append, List.append_assoc]

/-- Closed instance of `eligibility_checks_characterization`: the 25-day
request raises; an ordinary admissible request returns the spec
evaluator's result. -/
theorem eligibility_checks_characterization_witness :
    hrCanApplyLeave ⟨10, "A", 0, none, true⟩ 100 124
        ⟨5, "Annual", 20, 10, 3, true⟩ 90 ⟨[], []⟩ =
      Except.error PyErr.attributeError ∧
    hrCanApplyLeave ⟨10, "A", 0, none, true⟩ 100 104
        ⟨5, "Annual", 20, 10, 3, true⟩ 90 ⟨[], []⟩ =
      Except.ok (specEvaluate ⟨10, "A", 0, none, true⟩
        ⟨5, "Annual", 20, 10, 3, true⟩ 100 104 90 ⟨[], []⟩) := by
  constructor
  · exact (eligibility_checks_characterization ⟨10, "A", 0, none, true⟩ 100 124
      ⟨5, "Annual", 20, 10, 3, true⟩ 90 ⟨[], []⟩).1 (Or.inl (by decide))
  · exact (eligibility_checks_characterization ⟨10, "A", 0, none, true⟩ 100 104
      ⟨5, "Annual", 20, 10, 3, true⟩ 90 ⟨[], []⟩).2 (by decide) (by decide)
      (by decide) (by decide)

/-- Every element of an upserted row list is the new row or an old one. -/
theorem mem_statusUpsert {x s : EmployeeStatus} :
    ∀ {l : List EmployeeStatus}, x ∈ statusUpsert s l → x = s ∨ x ∈ l := by
  intro l
  induction l with
  | nil =>
    intro h
    simp [statusUpsert] at h
    exact Or.inl h
  | cons r rest ih =>
    intro h
    by_cases hid : r.st_id = s.st_id
    · rw [statusUpsert, if_pos hid] at h
      rcases List.mem_cons.mp h with h | h
      · exact Or.inl h
      · exact Or.inr (List.mem_cons_of_mem _ h)
    · rw [statusUpsert, if_neg hid] at h
      rcases List.mem_cons.mp h with h | h
      · exact Or.inr (h ▸ List.mem_cons_self _ _)
      · rcases ih h with h' | h'
        · exact Or.inl h'
        · exact Or.inr (List.mem_cons_of_mem _ h')

/-- Pairwise compatibility survives an upsert when the new row is
compatible with every old row it does not replace. -/
theorem pairwise_statusUpsert {R : EmployeeStatus → EmployeeStatus → Prop}
    {s : EmployeeStatus} :
    ∀ {l : List EmployeeStatus}, l.Pairwise R →
      (l.map (fun r => r.st_id)).Nodup →
      (∀ x ∈ l, x.st_id ≠ s.st_id → R s x ∧ R x s) →
      (statusUpsert s l).Pairwise R := by
  intro l
  induction l with
  | nil =>
    intro _ _ _
    simp [statusUpsert]
  | cons r rest ih =>
    intro hp hn hc
    rw [List.pairwise_cons] at hp
    obtain ⟨hr, hrest⟩ := hp
    rw [List.map_cons, List.nodup_cons] at hn
    obtain ⟨hrid, hnrest⟩ := hn
    by_cases hid : r.st_id = s.st_id
    · rw [statusUpsert, if_pos hid, List.pairwise_cons]
      refine ⟨fun x hx => ?_, hrest⟩
      have hxid : x.st_id ≠ s.st_id := by
        intro hxe
        exact hrid (by
          rw [hid, ← hxe]
          exact List.mem_map_of_mem _ hx)
      exact (hc x (List.mem_cons_of_mem _ hx) hxid).1
    · rw [statusUpsert, if_neg hid, List.pairwise_cons]
      refine ⟨fun x hx => ?_, ?_⟩
      · rcases mem_statusUpsert hx with rfl | hx'
        · exact (hc r (List.mem_cons_self _ _) hid).2
        · exact hr x hx'
      · exact ih hrest hnrest
          (fun x hx hxid => hc x (List.mem_cons_of_mem _ hx) hxid)

/-- Primary-key uniqueness survives an upsert. -/
theorem nodupIds_statusUpsert {s : EmployeeStatus} :
    ∀ {l : List EmployeeStatus}, (l.map (fun r => r.st_id)).Nodup →
      ((statusUpsert s l).map (fun r => r.st_id)).Nodup := by
  intro l
  induction l with
  | nil =>
    intro _
    simp [statusUpsert]
  | cons r rest ih =>
    intro hn
    rw [List.map_cons, List.nodup_cons] at hn
    obtain ⟨hrid, hnrest⟩ := hn
    by_cases hid : r.st_id = s.st_id
    · rw [statusUpsert, if_pos hid, List.map_cons, List.nodup_cons]
      exact ⟨by rw [← hid]; exact hrid, hnrest⟩
    · rw [statusUpsert, if_neg hid, List.map_cons, List.nodup_cons]
      refine ⟨fun hmem => ?_, ih hnrest⟩
      rcases List.mem_map.mp hmem with ⟨x, hx, hxe⟩
      rcases mem_statusUpsert hx with rfl | hx'
      · exact hid hxe.symm
      · exact hrid (hxe ▸ List.mem_map_of_mem _ hx')

/-- Claim C3: at every reachable state, at most one `EmployeeStatus` row
per employee has `is_current = true` — the empty store satisfies the
invariant and every completed `EmployeeStatus.save` (the single code
path mutating `is_current`; the view-level assign/transfer/terminate
endpoints all write through it) preserves it, together with
primary-key uniqueness. -/
theorem employee_status_save_preserves_unique_current
    (s : EmployeeStatus) (rows rows' : List EmployeeStatus) (today : Int)
    (hu : uniqueCurrent rows) (hn : nodupIds rows)
    (h : employeeStatusSave s rows today = Except.ok rows') :
    uniqueCurrent rows' ∧ nodupIds rows' := by
  unfold employeeStatusSave at h
  dsimp only at h
  split at h
  · simp at h
  split at h
  · simp at h
  split at h
  · simp at h
  rw [Except.ok.injEq] at h
  subst h
  unfold uniqueCurrent at hu ⊢
  unfold nodupIds at hn ⊢
  by_cases hc : s.is_current
  · rw [if_pos hc]
    have hidpres : ∀ r : EmployeeStatus,
        ((if r.employee.emp_id = s.employee.emp_id ∧ r.is_current ∧
            r.st_id ≠ s.st_id then
          { r with is_current := false, end_date := some today }
         else r) : EmployeeStatus).st_id = r.st_id := by
      intro r
      split <;> rfl
    have hmapids : ((rows.map (fun r =>
        if r.employee.emp_id = s.employee.emp_id ∧ r.is_current ∧
            r.st_id ≠ s.st_id then
          { r with is_current := false, end_date := some today }
        else r)).map (fun r => r.st_id)) = rows.map (fun r => r.st_id) := by
      rw [List.map_map]
      exact List.map_congr_left (fun r _ => hidpres r)
    have hnodup₁ : ((rows.map (fun r =>
        if r.employee.emp_id = s.employee.emp_id ∧ r.is_current ∧
            r.st_id ≠ s.st_id then
          { r with is_current := false, end_date := some today }
        else r)).map (fun r => r.st_id)).Nodup := by
      rw [hmapids]
      exact hn
    have hfacts : ∀ r : EmployeeStatus,
        ((if r.employee.emp_id = s.employee.emp_id ∧ r.is_current ∧
            r.st_id ≠ s.st_id then
          { r with is_current := false, end_date := some today }
         else r) : EmployeeStatus).employee = r.employee ∧
        (((if r.employee.emp_id = s.employee.emp_id ∧ r.is_current ∧
            r.st_id ≠ s.st_id then
          { r with is_current := false, end_date := some today }
         else r) : EmployeeStatus).is_current = true → r.is_current = true) := by
      intro r
      split
      · exact ⟨rfl, by intro hfa; exact absurd hfa (by simp)⟩
      · exact ⟨rfl, fun hx => hx⟩
    have hpair₁ := List.Pairwise.map (R := fun a b => ¬ currentConflict a b)
      (S := fun a b => ¬ currentConflict a b) _
      (fun a b hab hconf => by
        refine hab ?_
        obtain ⟨ha1, ha2, ha3⟩ := hconf
        exact ⟨(hfacts a).2 ha1, (hfacts b).2 ha2, by
          rw [← (hfacts a).1, ← (hfacts b).1]; exact ha3⟩) hu
    refine ⟨pairwise_statusUpsert hpair₁ hnodup₁ ?_, nodupIds_statusUpsert hnodup₁⟩
    intro x hx hxid
    rcases List.mem_map.mp hx with ⟨x₀, hx₀, hxe⟩
    have hxid₀ : x₀.st_id ≠ s.st_id := by
      rw [← hxe] at hxid
      rw [hidpres x₀] at hxid
      exact hxid
    constructor
    · rintro ⟨hs1, hx1, hemp⟩
      rw [← hxe] at hx1 hemp
      revert hx1 hemp
      split
      · intro hx1 _
        exact absurd hx1 (by simp)
      · rename_i hcond
        intro hx1 hemp
        exact hcond ⟨by rw [← hemp], hx1, hxid₀⟩
    · rintro ⟨hx1, hs1, hemp⟩
      rw [← hxe] at hx1 hemp
      revert hx1 hemp
      split
      · intro hx1 _
        exact absurd hx1 (by simp)
      · rename_i hcond
        intro hx1 hemp
        exact hcond ⟨by rw [hemp], hx1, hxid₀⟩
  · rw [if_neg hc]
    refine ⟨pairwise_statusUpsert hu hn ?_, nodupIds_statusUpsert hn⟩
    intro x hx _
    constructor
    · rintro ⟨hs1, -, -⟩
      exact hc hs1
    · rintro ⟨-, hs1, -⟩
      exact hc hs1

/-- Closed instance of `employee_status_save_preserves_unique_current`:
assigning a new current job to employee 10 closes the old current row
and the invariant still holds across both employees. -/
theorem employee_status_save_preserves_unique_current_witness :
    uniqueCurrent
      [⟨1, ⟨10, "A", 0, none, true⟩, 7, 10, some 50, 100, false⟩,
       ⟨2, ⟨11, "B", 0, none, true⟩, 7, 10, none, 100, true⟩,
       ⟨3, ⟨10, "A", 0, none, true⟩, 8, 20, none, 200, true⟩] ∧
    nodupIds
      [⟨1, ⟨10, "A", 0, none, true⟩, 7, 10, some 50, 100, false⟩,
       ⟨2, ⟨11, "B", 0, none, true⟩, 7, 10, none, 100, true⟩,
       ⟨3, ⟨10, "A", 0, none, true⟩, 8, 20, none, 200, true⟩] :=
  employee_status_save_preserves_unique_current
    ⟨3, ⟨10, "A", 0, none, true⟩, 8, 20, none, 200, true⟩
    [⟨1, ⟨10, "A", 0, none, true⟩, 7, 10, none, 100, true⟩,
     ⟨2, ⟨11, "B", 0, none, true⟩, 7, 10, none, 100, true⟩]
    [⟨1, ⟨10, "A", 0, none, true⟩, 7, 10, some 50, 100, false⟩,
     ⟨2, ⟨11, "B", 0, none, true⟩, 7, 10, none, 100, true⟩,
     ⟨3, ⟨10, "A", 0, none, true⟩, 8, 20, none, 200, true⟩]
    50
    (by unfold uniqueCurrent currentConflict
        simp [List.pairwise_cons])
    (by unfold nodupIds
        simp)
    rfl
